import Mathlib

/-!
Shallow embedding of the deepops tensor core (src/deepops/tensor.py).

The Python `Tensor` class tracks residency (HOST / DEVICE / DETACH) of a
numeric buffer and dispatches elementwise arithmetic either to the host
array library or to a device kernel.  Python mutation is modelled by
explicit state passing: every operation that assigns to `self` returns the
updated receiver, and exceptions are modelled with `Except`, carrying the
receiver as it stands at the raise point so that partial mutation is
observable.  Device memory is a gateway state mapping buffer ids to
contents; an external boolean oracle decides whether a device allocation
succeeds.  Scalar values are modelled as `Int` (exact for the small
float32 integer examples in play); `dtype` is a separate tag, as in numpy.

Two pieces of the repository are not under src/ and are modelled from the
spec where indicated: the `TensorState` enum (module deepops.states) and
the device kernels (module deepops.gpu_kernels).
-/

/-- Modelled from the spec: module src/deepops/states.py is absent from
src/; the spec (section 4.2) fixes exactly the three states HOST, DEVICE,
DETACH, distinct enum members. -/
inductive TensorState
  | HOST
  | DEVICE
  | DETACH
deriving DecidableEq, Repr

/-- Element type tag, mirroring the numpy dtype carried by arrays and
device handles; the core asserts float32 on device paths. -/
inductive DType
  | float32
  | float64
  | int32
  | int64
deriving DecidableEq, Repr

/-- A dense host array: `np.ndarray` with values, shape and dtype. -/
structure NpArray where
  values : List Int
  shape : List Nat
  dtype : DType
deriving DecidableEq, Repr

/-- A device buffer handle: `pycuda DeviceAllocation`, with the shape and
dtype metadata that `_alloc_device_memory` stamps onto it. -/
structure DeviceAlloc where
  id : Nat
  shape : List Nat
  dtype : DType
deriving DecidableEq, Repr

/-- The data handle of a tensor: a host array or a device handle,
selected by the residency state. -/
inductive TensorData
  | host (a : NpArray)
  | dev (h : DeviceAlloc)
deriving DecidableEq, Repr

/-- Errors raised by the core.  The three `assert` statements in
tensor.py are distinguished by program point, matching the spec taxonomy:
`invalidDevice` is the device-name assert, `precision` the float32
assert, `typeMismatch` the isinstance assert in arithmetic;
`allocationError` is a failed device allocation; `unboundLocal` is the
UnboundLocalError from returning the unassigned local in `_device`. -/
inductive Err
  | typeError
  | attributeError
  | invalidDevice
  | precision
  | typeMismatch
  | allocationError
  | transferError
  | launchError
  | valueError
  | unboundLocal
deriving DecidableEq, Repr

/-- The gateway state of the device runtime: fresh-id counter, device
memory as an association list from buffer id to contents, and counters
observing how many allocations and synchronizations were issued. -/
structure GatewayState where
  nextId : Nat
  mem : List (Nat × List Int)
  allocCount : Nat
  syncCount : Nat
deriving DecidableEq, Repr

/-- The empty gateway state. -/
def g0 : GatewayState := { nextId := 0, mem := [], allocCount := 0, syncCount := 0 }

/-- Read device memory at a buffer id (empty if unallocated). -/
def memGet : List (Nat × List Int) → Nat → List Int
  | [], _ => []
  | (k, v) :: rest, i => if k = i then v else memGet rest i

/-- Write device memory at a buffer id. -/
def memSet : List (Nat × List Int) → Nat → List Int → List (Nat × List Int)
  | [], i, v => [(i, v)]
  | (k, w) :: rest, i, v => if k = i then (i, v) :: rest else (k, w) :: memSet rest i v

/-- Product of a shape, the element count (`np.prod` of an empty shape is 1). -/
def listProd (l : List Nat) : Nat := l.foldl (fun a b => a * b) 1

/-- The Python `max(shape)`: none on an empty tuple (ValueError). -/
def maxShape : List Nat → Option Nat
  | [] => none
  | x :: xs => some (xs.foldl max x)

/-- Python str.startswith as a structural prefix test on the character
sequences of the two strings. -/
def strStartsWith (s pre : String) : Bool :=
  pre.data.isPrefixOf s.data

/-- The Tensor record: slots `_data`, `_dtype`, `_shape`, `gpu`, `state`,
`device_name` exactly as in `__slots__`. -/
structure Tensor where
  _data : TensorData
  _dtype : DType
  _shape : List Nat
  gpu : Bool
  state : TensorState
  device_name : String
deriving DecidableEq, Repr

/-- The shape attribute carried by a data handle (`self.data.shape`). -/
def TensorData.dataShape : TensorData → List Nat
  | .host a => a.shape
  | .dev h => h.shape

/-- The dtype attribute carried by a data handle (`self.data.dtype`). -/
def TensorData.dataDtype : TensorData → DType
  | .host a => a.dtype
  | .dev h => h.dtype

/-- The `__init__` branch for data that is already an ndarray or a
DeviceAllocation: state is re-derived from the kind of data, `gpu` is
False and `device_name` is reset to cpu:0. -/
def Tensor.ofData (d : TensorData) : Tensor :=
  { _data := d
    _dtype := d.dataDtype
    _shape := d.dataShape
    gpu := false
    state := match d with
      | .host _ => TensorState.HOST
      | .dev _ => TensorState.DEVICE
    device_name := "cpu:0" }

/-- Constructor input: a Python list, an ndarray, a DeviceAllocation, or
any other object (rejected with TypeError). -/
inductive InitData
  | list (vals : List Int)
  | ndarray (a : NpArray)
  | devalloc (h : DeviceAlloc)
  | other
deriving DecidableEq, Repr

/-- `Tensor.__init__(data, dtype=None)`: a list is converted by
`np.array(data, dtype = dtype if dtype else np.float32)`; an ndarray or a
DeviceAllocation is wrapped as is; anything else raises TypeError. -/
def Tensor.init (data : InitData) (dtype : Option DType) : Except Err Tensor :=
  match data with
  | .list vals =>
      .ok (Tensor.ofData (.host { values := vals, shape := [vals.length],
                                  dtype := dtype.getD DType.float32 }))
  | .ndarray a => .ok (Tensor.ofData (.host a))
  | .devalloc h => .ok (Tensor.ofData (.dev h))
  | .other => .error Err.typeError

/-- `GPUConnectMixin._alloc_device_memory(shape)`: requests
`prod(shape) * 4` bytes from the runtime and stamps shape and float32
dtype onto the returned handle.  The boolean oracle is the runtime: false
means the allocation fails (out of device memory). -/
def alloc_device_memory (g : GatewayState) (shape : List Nat) (ok : Bool) :
    Except Err (DeviceAlloc × GatewayState) :=
  if ok then
    .ok ({ id := g.nextId, shape := shape, dtype := DType.float32 },
         { g with nextId := g.nextId + 1,
                  mem := memSet g.mem g.nextId (List.replicate (listProd shape) 0),
                  allocCount := g.allocCount + 1 })
  else .error Err.allocationError

/-- `GPUConnectMixin._idiv(a, b) = a // b + 1`, the grid-size formula. -/
def GPUConnectMixin._idiv (a b : Nat) : Nat := a / b + 1

/-- `Tensor.BLOCKSIZE = 256`. -/
def Tensor.BLOCKSIZE : Nat := 256

/-- Elementwise operations dispatched by operator symbol. -/
inductive Op
  | add
  | sub
  | mul
deriving DecidableEq, Repr

/-- The scalar function of an operator symbol. -/
def Op.fn : Op → Int → Int → Int
  | .add, x, y => x + y
  | .sub, x, y => x - y
  | .mul, x, y => x * y

/-- Modelled from the spec: the kernel sources live in the absent module
src/deepops/gpu_kernels.py.  Per the spec (sections 4.2 and 6) each
operator symbol selects a precompiled program exposing one entry point
`device_arithmetic(result, lhs, rhs, count)` that computes the
elementwise operation, bounds-checking thread indices against `count`
internally; positions at or beyond `count` keep the uninitialized buffer
contents (modelled as zero). -/
def device_arithmetic (op : Op) (lhs rhs : List Int) (count : Nat) (outLen : Nat) :
    List Int :=
  (List.range outLen).map (fun i => if i < count then op.fn (lhs.getD i 0) (rhs.getD i 0) else 0)

/-- Launch geometry recorded by a device-path arithmetic call: the
extent `N`, the block dimensions and the grid dimensions passed to the
kernel launch. -/
structure LaunchRecord where
  N : Nat
  blockDim : Nat × Nat × Nat
  gridDim : Nat × Nat × Nat
deriving DecidableEq, Repr

/-- Result of `Tensor.arithmetic`: the host path returns the raw array
produced by the host library; the device path returns a new Tensor and
the launch geometry it used. -/
inductive ArithOut
  | rawArray (a : NpArray)
  | tensor (t : Tensor) (launch : LaunchRecord)
deriving DecidableEq, Repr

/-- The second operand of an arithmetic call: a Tensor or any non-Tensor
object. -/
inductive Operand
  | tensor (t : Tensor)
  | notTensor
deriving DecidableEq, Repr

/-- The host library elementwise product `a * b` on two ndarrays; the
core delegates shape compatibility to the library, modelled here for the
exercised case of equal shapes and dtypes. -/
def npMul (a b : NpArray) : Except Err NpArray :=
  if a.shape = b.shape ∧ a.dtype = b.dtype then
    .ok { values := List.zipWith (fun x y => x * y) a.values b.values,
          shape := a.shape, dtype := a.dtype }
  else .error Err.valueError

/-- Elementwise sum following the spec text, for comparison with what the
code computes: the spec demands `a.add(b).data == a.data + b.data`. -/
def specElementwiseAdd (a b : NpArray) : Except Err NpArray :=
  if a.shape = b.shape ∧ a.dtype = b.dtype then
    .ok { values := List.zipWith (fun x y => x + y) a.values b.values,
          shape := a.shape, dtype := a.dtype }
  else .error Err.valueError

/-- `Tensor.arithmetic(self, tensor, operation)`.  If the receiver is not
DEVICE the code returns `self.data * tensor.data` directly — the raw host
product, whatever the requested operation (reading `.data` off a
non-Tensor raises AttributeError; the host library rejects a host/device
mix).  On the DEVICE path it asserts the operand is a Tensor, allocates a
result buffer of `self.shape`, computes `N = max(self.shape)`, block
`(BLOCKSIZE,1,1)`, grid `(_idiv(N, BLOCKSIZE),1,1)`, launches the kernel
for the operator symbol, and wraps the result handle in a new Tensor
whose `_dtype` and `_shape` are then re-stamped from `self`. -/
def Tensor.arithmetic (t : Tensor) (other : Operand) (op : Op) (g : GatewayState)
    (ok : Bool) : Except Err (ArithOut × GatewayState) :=
  if t.state = TensorState.DEVICE then
    match other with
    | .notTensor => .error Err.typeMismatch
    | .tensor u =>
      match alloc_device_memory g t._shape ok with
      | .error e => .error e
      | .ok (ret, g1) =>
        match maxShape t._shape with
        | none => .error Err.valueError
        | some n =>
          match t._data, u._data with
          | .dev hs, .dev hu =>
            let out := device_arithmetic op (memGet g1.mem hs.id) (memGet g1.mem hu.id)
                        n (listProd t._shape)
            let g2 := { g1 with mem := memSet g1.mem ret.id out }
            let r0 := Tensor.ofData (.dev ret)
            let r := { r0 with _dtype := t._dtype, _shape := t._shape }
            .ok (ArithOut.tensor r
                  { N := n, blockDim := (Tensor.BLOCKSIZE, 1, 1),
                    gridDim := (GPUConnectMixin._idiv n Tensor.BLOCKSIZE, 1, 1) }, g2)
          | _, _ => .error Err.launchError
  else
    match other with
    | .notTensor => .error Err.attributeError
    | .tensor u =>
      match t._data, u._data with
      | .host a, .host b =>
        match npMul a b with
        | .error e => .error e
        | .ok arr => .ok (ArithOut.rawArray arr, g)
      | _, _ => .error Err.typeError

/-- `Tensor.add(self, tensor) = self.arithmetic(tensor, "+")`. -/
def Tensor.add (t : Tensor) (other : Operand) (g : GatewayState) (ok : Bool) :
    Except Err (ArithOut × GatewayState) :=
  Tensor.arithmetic t other Op.add g ok

/-- `Tensor.sub(self, tensor) = self.arithmetic(tensor, "-")`. -/
def Tensor.sub (t : Tensor) (other : Operand) (g : GatewayState) (ok : Bool) :
    Except Err (ArithOut × GatewayState) :=
  Tensor.arithmetic t other Op.sub g ok

/-- `Tensor.mul(self, tensor) = self.arithmetic(tensor, "*")`. -/
def Tensor.mul (t : Tensor) (other : Operand) (g : GatewayState) (ok : Bool) :
    Except Err (ArithOut × GatewayState) :=
  Tensor.arithmetic t other Op.mul g ok

/-- `Tensor.device(self, name)`: asserts the name starts with cpu or gpu,
asserts dtype float32, and when the state is not DEVICE sets
`state := DEVICE` and `device_name := name` BEFORE allocating the device
buffer; on allocation failure the exception propagates with those two
fields already mutated.  On success it copies host to device, re-reads
`_shape` and `_dtype` from `self.data` (still the host array at that
point), and installs the device handle as `_data`.  If the state is
already DEVICE the whole block is skipped and `self` is returned.  The
error case carries the receiver and gateway as they stand at the raise
point. -/
def Tensor.device (t : Tensor) (g : GatewayState) (ok : Bool) (name : String) :
    Except (Err × Tensor × GatewayState) (Tensor × GatewayState) :=
  if ¬(strStartsWith name "cpu" || strStartsWith name "gpu") then
    .error (Err.invalidDevice, t, g)
  else if ¬(t._dtype = DType.float32) then
    .error (Err.precision, t, g)
  else if ¬(t.state = TensorState.DEVICE) then
    let t1 := { t with state := TensorState.DEVICE, device_name := name }
    match alloc_device_memory g t._shape ok with
    | .error e => .error (e, t1, g)
    | .ok (h, g1) =>
      match t1._data with
      | .host a =>
        let g2 := { g1 with mem := memSet g1.mem h.id a.values }
        .ok ({ t1 with _shape := a.shape, _dtype := a.dtype, _data := .dev h }, g2)
      | .dev _ => .error (Err.transferError, t1, g1)
  else .ok (t, g)

/-- `Tensor.cpu(self)`: allocates `np.empty(self.shape, np.float32)`,
copies device to host, synchronizes, and wraps the host array in a new
Tensor; the receiver is not assigned to, so it is returned unchanged
alongside the result.  A host-resident data handle is not a valid source
for the device-to-host copy; a size mismatch between the device buffer
and the destination is a transfer error. -/
def Tensor.cpu (t : Tensor) (g : GatewayState) :
    Except Err (Tensor × Tensor × GatewayState) :=
  match t._data with
  | .dev h =>
    let c := memGet g.mem h.id
    if c.length = listProd t._shape then
      .ok (Tensor.ofData (.host { values := c, shape := t._shape, dtype := DType.float32 }),
           t, { g with syncCount := g.syncCount + 1 })
    else .error Err.transferError
  | .host _ => .error Err.typeError

/-- `Tensor.detach(self)`: sets `self.state = DETACH` and returns
`Tensor(self.data)` — a new Tensor built by the constructor over the same
data handle, whose state is re-derived from the kind of data.  Returns
(new tensor, receiver after the call). -/
def Tensor.detach (t : Tensor) : Tensor × Tensor :=
  (Tensor.ofData t._data, { t with state := TensorState.DETACH })

/-- `Tensor._device(self)`: the local `_cuda_device` is assigned only
under the DEVICE and HOST conditionals, so returning it in the DETACH
state raises UnboundLocalError. -/
def Tensor._device (t : Tensor) : Except Err String :=
  if t.state = TensorState.DEVICE then .ok "gpu"
  else if t.state = TensorState.HOST then .ok "cpu"
  else .error Err.unboundLocal

/-- The `where` property: `self._device()`. -/
def Tensor.whereLabel (t : Tensor) : Except Err String :=
  Tensor._device t

/-- Rendering fragments used by `__repr__`; the exact text of the shape,
data and dtype previews is immaterial to the claims. -/
def showShape (l : List Nat) : String :=
  String.intercalate ", " (l.map toString)

/-- `Tensor.__repr__`: interpolates shape, data preview, dtype and the
`where` residency label; evaluating `where` in the DETACH state raises,
so repr raises there too. -/
def Tensor.reprStr (t : Tensor) : Except Err String :=
  match Tensor.whereLabel t with
  | .error e => .error e
  | .ok w =>
    .ok ("dp.Tensor shape: (" ++ showShape t._shape ++ "), cuda device: " ++ w)

/-- A host float32 tensor built from a Python list, as `Tensor(vals)`. -/
def exHost (vals : List Int) : Tensor :=
  Tensor.ofData (TensorData.host { values := vals, shape := [vals.length],
                                   dtype := DType.float32 })

/-- A host int32 tensor, for exercising the float32 precision assert. -/
def exHostInt32 : Tensor :=
  Tensor.ofData (TensorData.host { values := [1], shape := [1], dtype := DType.int32 })

/-- A device buffer handle bound to id 0 with shape (2,). -/
def exDevAlloc : DeviceAlloc := { id := 0, shape := [2], dtype := DType.float32 }

/-- A device-resident tensor over exDevAlloc, placed on gpu. -/
def exDevTensor : Tensor :=
  { _data := TensorData.dev exDevAlloc, _dtype := DType.float32, _shape := [2],
    gpu := false, state := TensorState.DEVICE, device_name := "gpu" }

/-- A gateway state in which exDevAlloc holds the contents [5, 7]. -/
def exDevGateway : GatewayState :=
  { nextId := 1, mem := [(0, [5, 7])], allocCount := 1, syncCount := 0 }

/-- Discriminator: does an arithmetic call return a Tensor result? -/
def resultIsTensor : Except Err (ArithOut × GatewayState) → Bool
  | .ok (ArithOut.tensor _ _, _) => true
  | _ => false

/-- Claim C1 (code bug at this input): the host path of `arithmetic`
returns `self.data * tensor.data` whatever operation was requested, so
`Tensor([1,2]).add(Tensor([2,3]))` yields the raw elementwise product
[2, 6], while the spec (and the elementwise sum it demands) gives
[3, 5]. -/
theorem C1_host_add_is_product :
    Tensor.init (InitData.list [1, 2]) none = .ok (exHost [1, 2]) ∧
    Tensor.init (InitData.list [2, 3]) none = .ok (exHost [2, 3]) ∧
    Tensor.add (exHost [1, 2]) (Operand.tensor (exHost [2, 3])) g0 true =
      .ok (ArithOut.rawArray { values := [2, 6], shape := [2], dtype := DType.float32 },
           g0) ∧
    specElementwiseAdd { values := [1, 2], shape := [2], dtype := DType.float32 }
        { values := [2, 3], shape := [2], dtype := DType.float32 } =
      .ok { values := [3, 5], shape := [2], dtype := DType.float32 } ∧
    ([2, 6] : List Int) ≠ [3, 5] :=
  ⟨rfl, rfl, rfl, rfl, by decide⟩

/-- Claim C3 (code bug at this input): `device` assigns
`state := DEVICE` and `device_name := name` before the device-buffer
allocation, so an allocation failure on a HOST float32 tensor leaves the
tensor mutated: state and device_name have changed even though data,
shape and dtype are intact. -/
theorem C3_alloc_failure_mutates_state :
    Tensor.device (exHost [1]) g0 false "gpu" =
      .error (Err.allocationError,
        { exHost [1] with state := TensorState.DEVICE, device_name := "gpu" }, g0) ∧
    TensorState.DEVICE ≠ (exHost [1]).state ∧
    "gpu" ≠ (exHost [1]).device_name :=
  ⟨rfl, by decide, by decide⟩

/-- Claim C4 counterexample: calling `device("gpu:1")` on a tensor
already in DEVICE state bound to "gpu" returns normally with the tensor
unchanged — no exception of any kind is raised, the old buffer and the
old device binding are silently kept, although the requested name
differs. -/
theorem C4_counterexample :
    Tensor.device exDevTensor g0 true "gpu:1" = .ok (exDevTensor, g0) ∧
    exDevTensor.device_name = "gpu" ∧
    ("gpu:1" : String) ≠ "gpu" :=
  ⟨rfl, rfl, by decide⟩

/-- Claim C4 amended: on a tensor already in DEVICE state (with float32
dtype and a recognized device name), `device(name)` is a silent no-op
returning the receiver and gateway unchanged for every name, including a
name differing from the current binding; no NotImplementedError exists in
the code. -/
theorem C4_amended_silent_noop (t : Tensor) (g : GatewayState) (ok : Bool)
    (name : String) (h1 : t.state = TensorState.DEVICE)
    (h2 : t._dtype = DType.float32)
    (h3 : (strStartsWith name "cpu" || strStartsWith name "gpu") = true) :
    Tensor.device t g ok name = .ok (t, g) := by
  unfold Tensor.device
  rw [h3, h1, h2]
  simp

/-- Witness for C4: the amended no-op at a concrete DEVICE tensor and a
differing device name. -/
theorem C4_amended_silent_noop_witness :
    Tensor.device exDevTensor exDevGateway false "gpu:7" =
      .ok (exDevTensor, exDevGateway) :=
  C4_amended_silent_noop exDevTensor exDevGateway false "gpu:7" rfl rfl rfl

/-- Claim C9 counterexample: after `detach()` on a host tensor, the
returned tensor's state is HOST, not DETACH — the constructor re-derives
the state from the wrapped data. -/
theorem C9_counterexample :
    (Tensor.detach (exHost [1, 2])).1.state = TensorState.HOST ∧
    TensorState.HOST ≠ TensorState.DETACH :=
  ⟨rfl, by decide⟩

/-- Claim C9 amended: `detach()` sets the receiver's own state to DETACH
(leaving its other slots unchanged) and returns a new Tensor built by the
constructor over the same data handle (no copy is taken); for a
host-resident data handle the returned tensor's state is re-derived as
HOST, not DETACH. -/
theorem C9_amended_detach (t : Tensor) (a : NpArray)
    (h : t._data = TensorData.host a) :
    (Tensor.detach t).2.state = TensorState.DETACH ∧
    (Tensor.detach t).2._data = t._data ∧
    (Tensor.detach t).2._shape = t._shape ∧
    (Tensor.detach t).2._dtype = t._dtype ∧
    (Tensor.detach t).2.device_name = t.device_name ∧
    (Tensor.detach t).1 = Tensor.ofData (TensorData.host a) ∧
    (Tensor.detach t).1.state = TensorState.HOST ∧
    (Tensor.detach t).1._data = t._data := by
  unfold Tensor.detach
  rw [h]
  exact ⟨rfl, rfl, rfl, rfl, rfl, rfl, rfl, rfl⟩

/-- Witness for C9 amended: detach at a concrete host tensor. -/
theorem C9_amended_detach_witness :
    (Tensor.detach (exHost [3])).2.state = TensorState.DETACH ∧
    (Tensor.detach (exHost [3])).2._data = (exHost [3])._data ∧
    (Tensor.detach (exHost [3])).2._shape = (exHost [3])._shape ∧
    (Tensor.detach (exHost [3])).2._dtype = (exHost [3])._dtype ∧
    (Tensor.detach (exHost [3])).2.device_name = (exHost [3]).device_name ∧
    (Tensor.detach (exHost [3])).1 =
      Tensor.ofData (TensorData.host { values := [3], shape := [1],
                                       dtype := DType.float32 }) ∧
    (Tensor.detach (exHost [3])).1.state = TensorState.HOST ∧
    (Tensor.detach (exHost [3])).1._data = (exHost [3])._data :=
  C9_amended_detach (exHost [3])
    { values := [3], shape := [1], dtype := DType.float32 } rfl

/-- Claim C2 counterexample: on a HOST receiver, `sub` does not return a
Tensor at all — the host path hands back the raw host array (and it is
the elementwise product, not the difference). -/
theorem C2_counterexample :
    Tensor.sub (exHost [4, 5]) (Operand.tensor (exHost [1, 1])) g0 true =
      .ok (ArithOut.rawArray { values := [4, 5], shape := [2], dtype := DType.float32 },
           g0) ∧
    resultIsTensor
      (Tensor.sub (exHost [4, 5]) (Operand.tensor (exHost [1, 1])) g0 true) = false :=
  ⟨rfl, rfl⟩

/-- Claim C2 amended: only a DEVICE receiver yields a new Tensor, with
self's shape and dtype and DEVICE state; a non-DEVICE receiver returns
the raw host array `self.data * tensor.data` (the elementwise product,
whatever operation was requested), not a Tensor. -/
theorem C2_amended_residency :
    (∀ t u a b g ok op, ¬ t.state = TensorState.DEVICE →
      t._data = TensorData.host a → u._data = TensorData.host b →
      a.shape = b.shape → a.dtype = b.dtype →
      Tensor.arithmetic t (Operand.tensor u) op g ok =
        .ok (ArithOut.rawArray
          { values := List.zipWith (fun x y => x * y) a.values b.values,
            shape := a.shape, dtype := a.dtype }, g)) ∧
    (∀ t u hs hu g op n, t.state = TensorState.DEVICE →
      t._data = TensorData.dev hs → u._data = TensorData.dev hu →
      maxShape t._shape = some n →
      ∃ r lr g1, Tensor.arithmetic t (Operand.tensor u) op g true =
        .ok (ArithOut.tensor r lr, g1) ∧
        r.state = TensorState.DEVICE ∧ r._shape = t._shape ∧ r._dtype = t._dtype) := by
  constructor
  · intro t u a b g ok op h1 h2 h3 h4 h5
    simp only [Tensor.arithmetic, h2, h3, if_neg h1, npMul]
    rw [if_pos ⟨h4, h5⟩]
  · intro t u hs hu g op n h1 h2 h3 h4
    simp only [Tensor.arithmetic, h2, h3, h4, if_pos h1, alloc_device_memory, if_true]
    exact ⟨_, _, _, rfl, rfl, rfl, rfl⟩

/-- Witness for C2 amended: the host part at two concrete host tensors,
and the device part at a concrete device tensor. -/
theorem C2_amended_residency_witness :
    Tensor.arithmetic (exHost [2, 3]) (Operand.tensor (exHost [5, 6])) Op.sub g0 true =
      .ok (ArithOut.rawArray { values := [10, 18], shape := [2],
                               dtype := DType.float32 }, g0) ∧
    ∃ r lr g1, Tensor.arithmetic exDevTensor (Operand.tensor exDevTensor) Op.sub
        exDevGateway true = .ok (ArithOut.tensor r lr, g1) ∧
      r.state = TensorState.DEVICE ∧ r._shape = exDevTensor._shape ∧
      r._dtype = exDevTensor._dtype :=
  ⟨C2_amended_residency.1 (exHost [2, 3]) (exHost [5, 6])
      { values := [2, 3], shape := [2], dtype := DType.float32 }
      { values := [5, 6], shape := [2], dtype := DType.float32 }
      g0 true Op.sub (by decide) rfl rfl rfl rfl,
   C2_amended_residency.2 exDevTensor exDevTensor exDevAlloc exDevAlloc
      exDevGateway Op.sub 2 rfl rfl rfl rfl⟩

/-- Claim C5: every device-path arithmetic call launches with extent
`N = max(self.shape)`, block size the fixed constant 256, and grid size
`_idiv(N, 256) = N / 256 + 1` — and that formula is `N/256 + 1` both when
256 divides N and when it does not. -/
theorem C5_launch_geometry (t u : Tensor) (hs hu : DeviceAlloc) (g : GatewayState)
    (op : Op) (n : Nat) (h1 : t.state = TensorState.DEVICE)
    (h2 : t._data = TensorData.dev hs) (h3 : u._data = TensorData.dev hu)
    (h4 : maxShape t._shape = some n) :
    ∃ r g1, Tensor.arithmetic t (Operand.tensor u) op g true =
      .ok (ArithOut.tensor r
        { N := n, blockDim := (256, 1, 1), gridDim := (n / 256 + 1, 1, 1) }, g1) ∧
      GPUConnectMixin._idiv n Tensor.BLOCKSIZE = n / 256 + 1 ∧
      (256 ∣ n → GPUConnectMixin._idiv n Tensor.BLOCKSIZE = n / 256 + 1) ∧
      (¬ 256 ∣ n → GPUConnectMixin._idiv n Tensor.BLOCKSIZE = n / 256 + 1) := by
  simp only [Tensor.arithmetic, h2, h3, h4, if_pos h1, alloc_device_memory, if_true]
  exact ⟨_, _, rfl, rfl, fun _ => rfl, fun _ => rfl⟩

/-- Witness for C5: a concrete device-path add with shape (2,), where
the grid size is 2 / 256 + 1 = 1. -/
theorem C5_launch_geometry_witness :
    ∃ r g1, Tensor.arithmetic exDevTensor (Operand.tensor exDevTensor) Op.add
        exDevGateway true =
      .ok (ArithOut.tensor r
        { N := 2, blockDim := (256, 1, 1), gridDim := (2 / 256 + 1, 1, 1) }, g1) ∧
      GPUConnectMixin._idiv 2 Tensor.BLOCKSIZE = 2 / 256 + 1 ∧
      (256 ∣ 2 → GPUConnectMixin._idiv 2 Tensor.BLOCKSIZE = 2 / 256 + 1) ∧
      (¬ 256 ∣ 2 → GPUConnectMixin._idiv 2 Tensor.BLOCKSIZE = 2 / 256 + 1) :=
  C5_launch_geometry exDevTensor exDevTensor exDevAlloc exDevAlloc exDevGateway
    Op.add 2 rfl rfl rfl rfl

/-- Helper: a successful first placement of a host tensor computes this
explicit result — state and name are set, a fresh buffer of the current
shape is allocated, the host values are copied into it, and shape/dtype
are re-read from the still-host data before the handle is installed. -/
theorem device_host_success (t : Tensor) (a : NpArray) (g : GatewayState)
    (name : String)
    (hc : (strStartsWith name "cpu" || strStartsWith name "gpu") = true)
    (h1 : ¬ t.state = TensorState.DEVICE) (h2 : t._data = TensorData.host a)
    (h3 : t._dtype = DType.float32) :
    Tensor.device t g true name = .ok
      ({ t with
          state := TensorState.DEVICE
          device_name := name
          _shape := a.shape
          _dtype := a.dtype
          _data := TensorData.dev
            { id := g.nextId, shape := t._shape, dtype := DType.float32 } },
       { g with
          nextId := g.nextId + 1
          mem := memSet (memSet g.mem g.nextId
                   (List.replicate (listProd t._shape) 0)) g.nextId a.values
          allocCount := g.allocCount + 1 }) := by
  unfold Tensor.device
  rw [hc]
  simp only [Bool.not_eq_true, not_true, if_false, h3, h2, if_neg h1,
    alloc_device_memory, if_true]
  simp
  exact fun hx => absurd hx h1

/-- Helper: on a tensor already in DEVICE state with float32 dtype and a
recognized device name, `device(name)` returns receiver and gateway
unchanged for every allocation oracle. -/
theorem device_noop_on_device (t : Tensor) (g : GatewayState) (ok : Bool)
    (name : String) (h1 : t.state = TensorState.DEVICE)
    (h2 : t._dtype = DType.float32)
    (hc : (strStartsWith name "cpu" || strStartsWith name "gpu") = true) :
    Tensor.device t g ok name = .ok (t, g) := by
  unfold Tensor.device
  rw [hc, h1, h2]
  simp

/-- Claim C7: placement is idempotent — on a float32 HOST tensor the
first `device("gpu")` succeeds, and a second `device("gpu")` on the
result returns the very same tensor and gateway (same data handle,
shape, dtype, state and device binding), for every allocation oracle:
no allocation, no copy and no mutation happen on the second call. -/
theorem C7_placement_idempotent (t : Tensor) (a : NpArray) (g : GatewayState)
    (h1 : t.state = TensorState.HOST) (h2 : t._data = TensorData.host a)
    (h3 : t._dtype = DType.float32) (h4 : a.dtype = DType.float32) :
    ∃ t1 g1, Tensor.device t g true "gpu" = .ok (t1, g1) ∧
      t1.state = TensorState.DEVICE ∧
      ∀ ok2, Tensor.device t1 g1 ok2 "gpu" = .ok (t1, g1) := by
  have h1' : ¬ t.state = TensorState.DEVICE := by rw [h1]; decide
  refine ⟨_, _, device_host_success t a g "gpu" rfl h1' h2 h3, rfl, ?_⟩
  intro ok2
  exact device_noop_on_device _ _ ok2 "gpu" rfl h4 rfl

/-- Witness for C7: idempotent placement at a concrete host tensor. -/
theorem C7_placement_idempotent_witness :
    ∃ t1 g1, Tensor.device (exHost [9]) g0 true "gpu" = .ok (t1, g1) ∧
      t1.state = TensorState.DEVICE ∧
      ∀ ok2, Tensor.device t1 g1 ok2 "gpu" = .ok (t1, g1) :=
  C7_placement_idempotent (exHost [9])
    { values := [9], shape := [1], dtype := DType.float32 } g0 rfl rfl rfl rfl

/-- Claim C8: on a device-resident tensor, `cpu()` returns a fresh HOST
tensor holding the device buffer's contents, the synchronization counter
advances by one, and the receiver comes back entirely unchanged. -/
theorem C8_cpu_copy (t : Tensor) (h : DeviceAlloc) (g : GatewayState)
    (_h1 : t.state = TensorState.DEVICE) (h2 : t._data = TensorData.dev h)
    (h3 : (memGet g.mem h.id).length = listProd t._shape) :
    Tensor.cpu t g = .ok
      (Tensor.ofData (TensorData.host ⟨memGet g.mem h.id, t._shape, DType.float32⟩),
       t, { g with syncCount := g.syncCount + 1 }) ∧
    (Tensor.ofData
      (TensorData.host ⟨memGet g.mem h.id, t._shape, DType.float32⟩)).state =
      TensorState.HOST := by
  constructor
  · unfold Tensor.cpu
    rw [h2]
    simp only [if_pos h3]
  · rfl

/-- Witness for C8: `cpu()` at a concrete device tensor whose buffer
holds [5, 7]. -/
theorem C8_cpu_copy_witness :
    Tensor.cpu exDevTensor exDevGateway = .ok
      (Tensor.ofData (TensorData.host
        ⟨memGet exDevGateway.mem exDevAlloc.id, exDevTensor._shape, DType.float32⟩),
       exDevTensor, { exDevGateway with syncCount := exDevGateway.syncCount + 1 }) ∧
    (Tensor.ofData (TensorData.host
      ⟨memGet exDevGateway.mem exDevAlloc.id, exDevTensor._shape, DType.float32⟩)).state =
      TensorState.HOST :=
  C8_cpu_copy exDevTensor exDevAlloc exDevGateway rfl rfl rfl

/-- Claim C10: in the DETACH state the residency lookup `_device`
assigns no label, so reading the `where` accessor — and hence evaluating
repr — raises (UnboundLocalError) instead of returning a label. -/
theorem C10_detach_where_raises (t : Tensor) (h : t.state = TensorState.DETACH) :
    Tensor.whereLabel t = .error Err.unboundLocal ∧
    Tensor.reprStr t = .error Err.unboundLocal := by
  have h1 : ¬ t.state = TensorState.DEVICE := by rw [h]; decide
  have h2 : ¬ t.state = TensorState.HOST := by rw [h]; decide
  constructor
  · unfold Tensor.whereLabel Tensor._device
    rw [if_neg h1, if_neg h2]
  · unfold Tensor.reprStr Tensor.whereLabel Tensor._device
    rw [if_neg h1, if_neg h2]

/-- Witness for C10: the receiver immediately after `detach()` is in the
DETACH state and both accessors raise on it. -/
theorem C10_detach_where_raises_witness :
    Tensor.whereLabel (Tensor.detach (exHost [1])).2 = .error Err.unboundLocal ∧
    Tensor.reprStr (Tensor.detach (exHost [1])).2 = .error Err.unboundLocal :=
  C10_detach_where_raises (Tensor.detach (exHost [1])).2 rfl

/-- Claim C6: the three precondition checks raise exactly as specified —
device arithmetic on a DEVICE receiver rejects a non-Tensor operand
(typeMismatch assert); placement rejects an unrecognized device name
(invalidDevice assert) and, for a recognized name, a non-float32 dtype
(precision assert); and whenever those preconditions hold, no call raises
these errors. -/
theorem C6_precondition_errors :
    (∀ t g ok op, t.state = TensorState.DEVICE →
      Tensor.arithmetic t Operand.notTensor op g ok = .error Err.typeMismatch) ∧
    (∀ t g ok name, (strStartsWith name "cpu" || strStartsWith name "gpu") = false →
      Tensor.device t g ok name = .error (Err.invalidDevice, t, g)) ∧
    (∀ t g ok name, (strStartsWith name "cpu" || strStartsWith name "gpu") = true →
      ¬ t._dtype = DType.float32 →
      Tensor.device t g ok name = .error (Err.precision, t, g)) ∧
    (∀ t g ok name e t1 g1,
      (strStartsWith name "cpu" || strStartsWith name "gpu") = true →
      t._dtype = DType.float32 →
      Tensor.device t g ok name = .error (e, t1, g1) →
      ¬ e = Err.invalidDevice ∧ ¬ e = Err.precision) ∧
    (∀ t u g ok op e, t.state = TensorState.DEVICE →
      Tensor.arithmetic t (Operand.tensor u) op g ok = .error e →
      ¬ e = Err.typeMismatch) := by
  refine ⟨?_, ?_, ?_, ?_, ?_⟩
  · intro t g ok op h1
    simp only [Tensor.arithmetic, if_pos h1]
  · intro t g ok name h
    unfold Tensor.device
    rw [h]
    simp
  · intro t g ok name h hdt
    unfold Tensor.device
    rw [h]
    simp [hdt]
  · intro t g ok name e t1 g1 hname hdt hEq
    unfold Tensor.device at hEq
    rw [hname] at hEq
    simp only [Bool.not_eq_true, not_true, if_false, hdt] at hEq
    by_cases hst : t.state = TensorState.DEVICE
    · simp [hst] at hEq
    · simp only [if_neg (by simp [hst] : ¬ ¬ ¬ t.state = TensorState.DEVICE),
        if_pos (by simp [hst] : ¬ t.state = TensorState.DEVICE)] at hEq
      cases ok
      · simp only [alloc_device_memory, Bool.false_eq_true, if_false] at hEq
        obtain ⟨he, -⟩ := Prod.mk.injEq .. ▸ (Except.error.injEq .. ▸ hEq)
        subst he
        exact ⟨by decide, by decide⟩
      · simp only [alloc_device_memory, if_true] at hEq
        cases hd : t._data with
        | host a => simp [hd] at hEq
        | dev hh =>
          simp only [hd] at hEq
          obtain ⟨he, -⟩ := Prod.mk.injEq .. ▸ (Except.error.injEq .. ▸ hEq)
          subst he
          exact ⟨by decide, by decide⟩
  · intro t u g ok op e h1 hEq
    simp only [Tensor.arithmetic, if_pos h1] at hEq
    cases ok
    · simp only [alloc_device_memory, Bool.false_eq_true, if_false] at hEq
      obtain he := Except.error.injEq .. ▸ hEq
      subst he
      decide
    · simp only [alloc_device_memory, if_true] at hEq
      cases hms : maxShape t._shape with
      | none =>
        simp only [hms] at hEq
        obtain he := Except.error.injEq .. ▸ hEq
        subst he
        decide
      | some n =>
        simp only [hms] at hEq
        cases hd : t._data with
        | host a =>
          simp only [hd] at hEq
          obtain he := Except.error.injEq .. ▸ hEq
          subst he
          decide
        | dev hs =>
          simp only [hd] at hEq
          cases hud : u._data with
          | host b =>
            simp only [hud] at hEq
            obtain he := Except.error.injEq .. ▸ hEq
            subst he
            decide
          | dev hu => simp [hud] at hEq

/-- Witness for C6: each branch of the precondition contract at a
concrete call — a non-Tensor operand on a device tensor, the name "tpu",
an int32 tensor placed on "gpu", an allocation failure (whose error is
neither invalidDevice nor precision), and a device-path allocation
failure with a Tensor operand (whose error is not typeMismatch). -/
theorem C6_precondition_errors_witness :
    Tensor.arithmetic exDevTensor Operand.notTensor Op.add g0 true =
      .error Err.typeMismatch ∧
    Tensor.device (exHost [1]) g0 true "tpu" =
      .error (Err.invalidDevice, exHost [1], g0) ∧
    Tensor.device exHostInt32 g0 true "gpu" =
      .error (Err.precision, exHostInt32, g0) ∧
    (¬ Err.allocationError = Err.invalidDevice ∧
     ¬ Err.allocationError = Err.precision) ∧
    ¬ Err.allocationError = Err.typeMismatch :=
  ⟨C6_precondition_errors.1 exDevTensor g0 true Op.add rfl,
   C6_precondition_errors.2.1 (exHost [1]) g0 true "tpu" rfl,
   C6_precondition_errors.2.2.1 exHostInt32 g0 true "gpu" rfl (by decide),
   C6_precondition_errors.2.2.2.1 (exHost [1]) g0 false "gpu" Err.allocationError
     { exHost [1] with state := TensorState.DEVICE, device_name := "gpu" } g0
     rfl rfl rfl,
   C6_precondition_errors.2.2.2.2 exDevTensor exDevTensor g0 false Op.add
     Err.allocationError rfl rfl⟩
